import Mathlib

/-!
Verification development for the chromadb-rs client library.

The definitions below are a shallow embedding of the client-side logic of the
repository:

* `validate` embeds the entry validator `fn validate` of
  `src/async/collection.rs` (lines 401-464),
* `resolveQuerySource` embeds the query-source cascade at the top of
  `ChromaCollection::query` in `src/async/collection.rs` (lines 277-289),
* the `…JsonBody` functions embed the `json!` request bodies built by
  `add`/`upsert`/`update`/`get`/`query`/`delete` in `src/async/collection.rs`,
* `classifyResponse` embeds the status classification of
  `APIClientAsync::send_request_no_self` in `src/api.rs` (lines 175-188),
* `get_auth` / `clientNew` embed tenant resolution in `src/api.rs`
  (lines 113-123) and `ChromaClient::new` in `src/client.rs` (lines 44-66).

Numeric JSON scalars (the `f32` embedding coordinates and metadata numbers)
are modelled as rationals; no arithmetic is ever performed on them by the
embedded code, they are only stored, compared and serialized.
-/

namespace ChromaDB

/-- JSON scalar values allowed in collection metadata
(numbers, strings, booleans — `src/async/commons.rs` `Metadata`). -/
inductive Scalar where
  | num (q : ℚ)
  | str (s : String)
  | bool (b : Bool)
deriving DecidableEq

/-- JSON values, as produced by `serde_json::json!` in the request builders. -/
inductive JValue where
  | null
  | bool (b : Bool)
  | num (q : ℚ)
  | str (s : String)
  | arr (xs : List JValue)
  | obj (fields : List (String × JValue))

/-- The `serde_json::Value::is_null` test. -/
def JValue.isNull : JValue → Bool
  | .null => true
  | _ => false

/-- An `Embedding` = `Vec<f32>` (`src/async/commons.rs`). -/
abbrev Embedding := List ℚ

/-- The `Embeddings` alias = `Vec<Embedding>`. -/
abbrev Embeddings := List Embedding

/-- The `Documents` alias = `Vec<&str>`. -/
abbrev Documents := List String

/-- A `Metadata` map = `Map<String, Value>`; values restricted to JSON scalars. -/
abbrev Metadata := List (String × Scalar)

/-- The `Metadatas` alias = `Vec<Metadata>`. -/
abbrev Metadatas := List Metadata

/-- The `CollectionEntries` batch (`src/async/collection.rs` lines 393-399). -/
structure CollectionEntries where
  ids : List String
  metadatas : Option Metadatas
  documents : Option Documents
  embeddings : Option Embeddings
deriving DecidableEq

/-- The validator's failure kinds; each constructor corresponds to one
`bail!` site of `fn validate` in `src/async/collection.rs`:
`missingContent` = "Embeddings and documents cannot both be None",
`missingEmbeddingProvider` = "embedding_function cannot be None if …",
`conflictingEmbeddingSource` = "embedding_function should be None if …",
`embeddingProviderFailed` = the error propagated by `?` from `embed`,
`emptyId` = "Found empty string in IDs",
`lengthMismatch` = "IDs, embeddings, metadatas, and documents must all be the same length",
`duplicateId` = "Expected IDs to be unique, found duplicates for: {:?}"
(carrying the reported id list). -/
inductive ValidationError where
  | missingContent
  | missingEmbeddingProvider
  | conflictingEmbeddingSource
  | embeddingProviderFailed (msg : String)
  | emptyId
  | lengthMismatch
  | duplicateId (ids : List String)
deriving DecidableEq

deriving instance DecidableEq for Except

/-- The `EmbeddingFunction` trait: `fn embed(&self, docs) -> Result<Embeddings>`. -/
abbrev EmbeddingFunction := Documents → Except String Embeddings

/-- Step 4 of `fn validate` (`src/async/collection.rs` lines 426-432):
invoke the provider when embeddings are absent, documents present and a
provider was supplied. The `Bool` records whether the provider was invoked. -/
def computeEmbeddings (b : CollectionEntries) (ef : Option EmbeddingFunction) :
    Except ValidationError (Option Embeddings × Bool) :=
  match b.embeddings, b.documents, ef with
  | none, some docs, some f =>
    match f docs with
    | .error e => .error (.embeddingProviderFailed e)
    | .ok es => .ok (some es, true)
  | es, _, _ => .ok (es, false)

/-- The length-equality test of `fn validate` (`src/async/collection.rs`
lines 440-445): some present field has a length different from `|ids|`. -/
def lengthsMismatch (ids : List String) (oe : Option Embeddings)
    (om : Option Metadatas) (od : Option Documents) : Bool :=
  (match oe with | some es => es.length != ids.length | none => false)
  || (match om with | some ms => ms.length != ids.length | none => false)
  || (match od with | some ds => ds.length != ids.length | none => false)

/-- The duplicate-id list reported by `fn validate`
(`src/async/collection.rs` lines 449-452): the ids whose occurrence count
in `ids` exceeds one, kept in order and with multiplicity. -/
def duplicateIds (ids : List String) : List String :=
  ids.filter fun id => decide (1 < ids.count id)

/-- Checks 5-7 of `fn validate` (`src/async/collection.rs` lines 434-463):
the empty-id loop, the length-equality test, and the uniqueness test (the
Rust compares the `HashSet` cardinality of `ids` with `ids.len()`, which
holds exactly when `ids` has no duplicates). On success the entries are
re-assembled with the (possibly provider-computed) embeddings. -/
def validateTail (ids : List String) (m : Option Metadatas) (d : Option Documents)
    (oe : Option Embeddings) (invoked : Bool) :
    Except ValidationError (CollectionEntries × Bool) :=
  if ids.any fun id => id == "" then
    .error .emptyId
  else if lengthsMismatch ids oe m d then
    .error .lengthMismatch
  else if ¬ ids.Nodup then
    .error (.duplicateId (duplicateIds ids))
  else
    .ok ({ ids := ids, metadatas := m, documents := d, embeddings := oe }, invoked)

/-- The `fn validate` of `src/async/collection.rs` (lines 401-464), instrumented:
the `Bool` in the result records whether the embedding provider was invoked. -/
def validateAux (require_embeddings_or_documents : Bool) (b : CollectionEntries)
    (embedding_function : Option EmbeddingFunction) :
    Except ValidationError (CollectionEntries × Bool) :=
  if require_embeddings_or_documents && b.embeddings.isNone && b.documents.isNone then
    .error .missingContent
  else if b.embeddings.isNone && b.documents.isSome && embedding_function.isNone then
    .error .missingEmbeddingProvider
  else if b.embeddings.isSome && embedding_function.isSome then
    .error .conflictingEmbeddingSource
  else
    match computeEmbeddings b embedding_function with
    | .error e => .error e
    | .ok (embeddings, invoked) =>
      validateTail b.ids b.metadatas b.documents embeddings invoked

/-- The `fn validate` of `src/async/collection.rs` (lines 401-464). -/
def validate (require_embeddings_or_documents : Bool) (b : CollectionEntries)
    (embedding_function : Option EmbeddingFunction) :
    Except ValidationError CollectionEntries :=
  (validateAux require_embeddings_or_documents b embedding_function).map Prod.fst

/-- Failure kinds of the query-source cascade in `ChromaCollection::query`
(`src/async/collection.rs` lines 277-289); each constructor corresponds to
one `bail!` site there, plus the propagated provider failure. -/
inductive QueryError where
  | conflictingQuerySource
  | missingQuerySource
  | missingEmbeddingProvider
  | embeddingProviderFailed (msg : String)
deriving DecidableEq

/-- The query-source cascade at the top of `ChromaCollection::query`
(`src/async/collection.rs` lines 277-289): settle `query_embeddings` from
the caller-supplied embeddings, texts and optional provider. -/
def resolveQuerySource (query_embeddings : Option Embeddings)
    (query_texts : Option Documents) (embedding_function : Option EmbeddingFunction) :
    Except QueryError (Option Embeddings) :=
  if query_embeddings.isSome && query_texts.isSome then
    .error .conflictingQuerySource
  else if query_embeddings.isNone && query_texts.isNone then
    .error .missingQuerySource
  else if query_texts.isSome && embedding_function.isNone then
    .error .missingEmbeddingProvider
  else if query_embeddings.isNone && embedding_function.isSome then
    match embedding_function, query_texts with
    | some f, some texts =>
      match f texts with
      | .error e => .error (.embeddingProviderFailed e)
      | .ok es => .ok (some es)
    | _, _ => .ok query_embeddings
  else
    .ok query_embeddings

/-! ### JSON request bodies

`serde_json::json!` serializes an absent `Option` as an explicit `null`
value; `get` and `query` additionally run
`json_body.as_object_mut().unwrap().retain(|_, v| !v.is_null())`. -/

/-- Serialize an optional value the way `json!` does: `None` becomes `null`. -/
def optJ (f : α → JValue) : Option α → JValue
  | none => .null
  | some a => f a

/-- A list of ids as a JSON array of strings. -/
def idsToJ (ids : List String) : JValue := .arr (ids.map .str)

/-- Documents as a JSON array of strings. -/
def docsToJ (ds : Documents) : JValue := .arr (ds.map .str)

/-- An embedding as a JSON array of numbers. -/
def embToJ (e : Embedding) : JValue := .arr (e.map .num)

/-- Embeddings as a JSON array of arrays of numbers. -/
def embsToJ (es : Embeddings) : JValue := .arr (es.map embToJ)

/-- A metadata map as a JSON object. -/
def metaToJ (m : Metadata) : JValue :=
  .obj (m.map fun kv => (kv.1, match kv.2 with
    | .num q => JValue.num q
    | .str s => JValue.str s
    | .bool b => JValue.bool b))

/-- Metadatas as a JSON array of objects. -/
def metasToJ (ms : Metadatas) : JValue := .arr (ms.map metaToJ)

/-- The `retain` call removing null values from a JSON object's key/value pairs. -/
def retainNonNull (kvs : List (String × JValue)) : List (String × JValue) :=
  kvs.filter fun kv => !kv.2.isNull

/-- The `json!` body built by `ChromaCollection::add` (`src/async/collection.rs`
lines 99-104); `upsert` (146-151) and `update` (232-237) build the identical
body. No null-valued key is removed. -/
def entriesJsonBody (e : CollectionEntries) : List (String × JValue) :=
  [("ids", idsToJ e.ids),
   ("embeddings", optJ embsToJ e.embeddings),
   ("metadatas", optJ metasToJ e.metadatas),
   ("documents", optJ docsToJ e.documents)]

/-- The body built by `ChromaCollection::add`. -/
abbrev addJsonBody := entriesJsonBody

/-- The body built by `ChromaCollection::upsert`. -/
abbrev upsertJsonBody := entriesJsonBody

/-- The body built by `ChromaCollection::update`. -/
abbrev updateJsonBody := entriesJsonBody

/-- The `GetOptions` struct (`src/async/collection.rs` lines 364-372); the `include`
field is renamed `include_fields` because `include` is a Lean keyword. -/
structure GetOptions where
  ids : List String
  where_metadata : Option JValue
  limit : Option Nat
  offset : Option Nat
  where_document : Option JValue
  include_fields : Option (List String)

/-- The `json!` body built by `ChromaCollection::get` (`src/async/collection.rs`
lines 180-192), with null-valued keys removed by `retain`. -/
def getJsonBody (g : GetOptions) : List (String × JValue) :=
  retainNonNull
    [("ids", idsToJ g.ids),
     ("where", optJ id g.where_metadata),
     ("limit", optJ (fun n => .num n) g.limit),
     ("offset", optJ (fun n => .num n) g.offset),
     ("where_document", optJ id g.where_document),
     ("include", optJ (fun xs => .arr (xs.map .str)) g.include_fields)]

/-- The `QueryOptions` struct (`src/async/collection.rs` lines 374-382); the `include`
field is renamed `include_fields` because `include` is a Lean keyword. -/
structure QueryOptions where
  query_embeddings : Option Embeddings
  query_texts : Option Documents
  n_results : Option Nat
  where_metadata : Option JValue
  where_document : Option JValue
  include_fields : Option (List String)

/-- The `json!` body built by `ChromaCollection::query`
(`src/async/collection.rs` lines 291-302) from the resolved
`query_embeddings`, with null-valued keys removed by `retain`. -/
def queryJsonBody (query_embeddings : Option Embeddings) (n_results : Option Nat)
    (where_metadata where_document : Option JValue)
    (include_fields : Option (List String)) : List (String × JValue) :=
  retainNonNull
    [("query_embeddings", optJ embsToJ query_embeddings),
     ("n_results", optJ (fun n => .num n) n_results),
     ("where", optJ id where_metadata),
     ("where_document", optJ id where_document),
     ("include", optJ (fun xs => .arr (xs.map .str)) include_fields)]

/-- The `json!` body built by `ChromaCollection::delete`
(`src/async/collection.rs` lines 342-346). No null-valued key is removed. -/
def deleteJsonBody (ids : Option (List String))
    (where_metadata where_document : Option JValue) : List (String × JValue) :=
  [("ids", optJ idsToJ ids),
   ("where", optJ id where_metadata),
   ("where_document", optJ id where_document)]

/-! ### Operation pipelines over an abstract transport -/

/-- The transport capability: send a JSON body, receive a JSON response or a
failure (the message of `send_request_no_self`). -/
abbrev Transport := List (String × JValue) → Except String JValue

/-- Failures surfaced by a public collection operation. -/
inductive OpError where
  | validation (e : ValidationError)
  | query (e : QueryError)
  | transport (msg : String)

/-- The operation `ChromaCollection::add` (`src/async/collection.rs` lines 85-111):
validate, build the body, send it. -/
def addOp (entries : CollectionEntries) (ef : Option EmbeddingFunction)
    (t : Transport) : Except OpError JValue :=
  match validate true entries ef with
  | .error e => .error (.validation e)
  | .ok ce =>
    match t (addJsonBody ce) with
    | .error m => .error (.transport m)
    | .ok v => .ok v

/-- The operation `ChromaCollection::query` (`src/async/collection.rs` lines 264-308):
resolve the query source, build the body, send it. -/
def queryOp (q : QueryOptions) (ef : Option EmbeddingFunction)
    (t : Transport) : Except OpError JValue :=
  match resolveQuerySource q.query_embeddings q.query_texts ef with
  | .error e => .error (.query e)
  | .ok qe =>
    match t (queryJsonBody qe q.n_results q.where_metadata q.where_document
        q.include_fields) with
    | .error m => .error (.transport m)
    | .ok v => .ok v

/-! ### Transport response classification -/

/-- The `reqwest::StatusCode::is_success` range test: 200-299. -/
def statusIsSuccess (status : Nat) : Bool :=
  200 ≤ status && status < 300

/-- The response classification of `APIClientAsync::send_request_no_self`
(`src/api.rs` lines 175-188): a success-range status hands the body to the
caller, any other status fails with
`"{status} {canonical_reason or Unknown}: {body}"`. -/
def classifyResponse (status : Nat) (canonicalReason : Option String)
    (bodyText : String) : Except String String :=
  if statusIsSuccess status then
    .ok bodyText
  else
    .error (toString status ++ " " ++ canonicalReason.getD "Unknown" ++ ": " ++ bodyText)

/-- The substring predicate: `needle` occurs verbatim inside `hay`. -/
def containsSub (needle hay : String) : Prop :=
  ∃ p q, hay = p ++ needle ++ q

/-! ### Tenant resolution at client construction -/

/-- The `UserIdentity` response (`src/api.rs` lines 45-50). -/
structure UserIdentity where
  tenant : String
  databases : List String
deriving DecidableEq

/-- The function `APIClientAsync::get_auth` (`src/api.rs` lines 113-123), applied to the
outcome of its single identity-endpoint call; the second component counts
the network calls the function performs (the function body sends exactly
one request). -/
def get_auth (identityResponse : Except String UserIdentity) :
    Except String UserIdentity × Nat :=
  (match identityResponse with
   | .error e => .error e
   | .ok u =>
     .ok { u with tenant := if u.tenant = "*" then "default_tenant" else u.tenant },
   1)

/-- The client value produced by `ChromaClient::new` (`src/client.rs`). -/
structure ChromaClient where
  tenant : String
  database : String
deriving DecidableEq

/-- The constructor `ChromaClient::new` (`src/client.rs` lines 44-66): resolve the tenant via
`get_auth` and build the client, or fail outright; the second component
counts identity-endpoint calls. -/
def clientNew (database : String) (identityResponse : Except String UserIdentity) :
    Except String ChromaClient × Nat :=
  match get_auth identityResponse with
  | (.error e, k) => (.error e, k)
  | (.ok u, k) => (.ok { tenant := u.tenant, database := database }, k)

/-! ### Spec-side definitions (worded from the claims, for the refinement
claims about check order) -/

instance (o : Option α) (p : α → Prop) [DecidablePred p] :
    Decidable (∃ a, o = some a ∧ p a) :=
  match o with
  | none => isFalse (by simp)
  | some a => decidable_of_iff (p a) (by simp)

/-- Modelled from the claim's wording of checks (5)-(7): any empty-string id
fails `EmptyId`; any present field among embeddings, metadatas, documents
whose length differs from `|ids|` fails `LengthMismatch`; duplicated ids
fail `DuplicateId`, the error enumerating the ids occurring more than once;
if no check applies, validation succeeds. -/
def specTail (ids : List String) (m : Option Metadatas) (d : Option Documents)
    (oe : Option Embeddings) : Except ValidationError CollectionEntries :=
  if ∃ i ∈ ids, i = "" then
    .error .emptyId
  else if (∃ es, oe = some es ∧ es.length ≠ ids.length)
      ∨ (∃ ms, m = some ms ∧ ms.length ≠ ids.length)
      ∨ (∃ ds, d = some ds ∧ ds.length ≠ ids.length) then
    .error .lengthMismatch
  else if ∃ x ∈ ids, 1 < ids.count x then
    .error (.duplicateId (ids.filter fun x => decide (1 < ids.count x)))
  else
    .ok { ids := ids, metadatas := m, documents := d, embeddings := oe }

/-- The validator as the claim states it, check by check in the claim's
order: (1) content required and both embeddings and documents absent fails
`MissingContent`; (2) documents present, embeddings absent, no provider
fails `MissingEmbeddingProvider`; (3) embeddings present and a provider also
supplied fails `ConflictingEmbeddingSource`; (4) otherwise the provider is
invoked when documents are present without embeddings; then checks (5)-(7)
of `specTail`. -/
def validateSpecC1 (contentRequired : Bool) (b : CollectionEntries)
    (provider : Option EmbeddingFunction) : Except ValidationError CollectionEntries :=
  if contentRequired = true ∧ b.embeddings = none ∧ b.documents = none then
    .error .missingContent
  else if b.documents ≠ none ∧ b.embeddings = none ∧ provider.isSome = false then
    .error .missingEmbeddingProvider
  else if b.embeddings ≠ none ∧ provider.isSome = true then
    .error .conflictingEmbeddingSource
  else
    match b.embeddings, b.documents, provider with
    | none, some docs, some f =>
      match f docs with
      | .error e => .error (.embeddingProviderFailed e)
      | .ok es => specTail b.ids b.metadatas b.documents (some es)
    | es, _, _ => specTail b.ids b.metadatas b.documents es

/-- The query-spec resolver as the claim states it, check by check in the
claim's order: both sources fail `ConflictingQuerySource`; neither fails
`MissingQuerySource`; texts with no provider fail `MissingEmbeddingProvider`;
texts with a provider and absent embeddings compute the embeddings via the
provider; in every other case the caller-supplied embeddings pass through
unchanged. -/
def resolveQuerySpecC3 (qe : Option Embeddings) (qt : Option Documents)
    (provider : Option EmbeddingFunction) : Except QueryError (Option Embeddings) :=
  if qe ≠ none ∧ qt ≠ none then
    .error .conflictingQuerySource
  else if qe = none ∧ qt = none then
    .error .missingQuerySource
  else if qt ≠ none ∧ provider.isSome = false then
    .error .missingEmbeddingProvider
  else
    match qt, provider, qe with
    | some texts, some f, none =>
      match f texts with
      | .error e => .error (.embeddingProviderFailed e)
      | .ok es => .ok (some es)
    | _, _, _ => .ok qe

/-! ### Helper lemmas -/

lemma any_empty_iff (ids : List String) :
    (ids.any fun id => id == "") = true ↔ ∃ i ∈ ids, i = "" := by
  simp [List.any_eq_true]

lemma lengthsMismatch_iff (ids : List String) (oe : Option Embeddings)
    (om : Option Metadatas) (od : Option Documents) :
    lengthsMismatch ids oe om od = true ↔
      (∃ es, oe = some es ∧ es.length ≠ ids.length)
      ∨ (∃ ms, om = some ms ∧ ms.length ≠ ids.length)
      ∨ (∃ ds, od = some ds ∧ ds.length ≠ ids.length) := by
  cases oe <;> cases om <;> cases od <;> simp [lengthsMismatch, or_assoc]

lemma not_nodup_iff_exists_dup (l : List String) :
    ¬ l.Nodup ↔ ∃ x ∈ l, 1 < l.count x := by
  rw [List.nodup_iff_count_le_one]
  push_neg
  constructor
  · rintro ⟨a, ha⟩
    exact ⟨a, List.count_pos_iff.mp (by omega), ha⟩
  · rintro ⟨a, _, ha⟩
    exact ⟨a, ha⟩

lemma except_map_error (f : α → β) (e : ε) :
    Except.map f (Except.error e : Except ε α) = Except.error e := rfl

lemma tail_eq (ids : List String) (m : Option Metadatas) (d : Option Documents)
    (oe : Option Embeddings) (inv : Bool) :
    (validateTail ids m d oe inv).map Prod.fst = specTail ids m d oe := by
  unfold validateTail specTail duplicateIds
  by_cases h1 : ∃ i ∈ ids, i = ""
  · simp [(any_empty_iff ids).mpr h1, h1, Except.map]
  · have e1 : (ids.any fun id => id == "") = false := by
      rw [← Bool.not_eq_true, any_empty_iff]; exact h1
    by_cases h2 : (∃ es, oe = some es ∧ es.length ≠ ids.length)
        ∨ (∃ ms, m = some ms ∧ ms.length ≠ ids.length)
        ∨ (∃ ds, d = some ds ∧ ds.length ≠ ids.length)
    · simp [e1, h1, (lengthsMismatch_iff ids oe m d).mpr h2, h2, Except.map]
    · have e2 : lengthsMismatch ids oe m d = false := by
        rw [← Bool.not_eq_true, lengthsMismatch_iff]; exact h2
      by_cases h3 : ∃ x ∈ ids, 1 < ids.count x
      · simp [e1, h1, e2, h2, (not_nodup_iff_exists_dup ids).mpr h3, h3, Except.map]
      · simp [e1, h1, e2, h2, h3, (not_nodup_iff_exists_dup ids).not.mpr h3, Except.map]

lemma mem_duplicateIds (ids : List String) (x : String) :
    x ∈ duplicateIds ids ↔ 1 < ids.count x := by
  unfold duplicateIds
  simp only [List.mem_filter, decide_eq_true_eq]
  constructor
  · rintro ⟨-, h⟩; exact h
  · intro h; exact ⟨List.count_pos_iff.mp (by omega), h⟩

lemma validateTail_map_ok {ids : List String} {m : Option Metadatas}
    {d : Option Documents} {oe : Option Embeddings} {inv : Bool}
    {nb : CollectionEntries}
    (h : Except.map Prod.fst (validateTail ids m d oe inv) = .ok nb) :
    nb = { ids := ids, metadatas := m, documents := d, embeddings := oe }
    ∧ (ids.any fun id => id == "") = false
    ∧ lengthsMismatch ids oe m d = false
    ∧ ids.Nodup := by
  unfold validateTail at h
  split at h
  · simp [except_map_error] at h
  · split at h
    · simp [except_map_error] at h
    · split at h
      · simp [except_map_error] at h
      · rename_i h1 h2 h3
        simp only [Except.map, Except.ok.injEq] at h
        exact ⟨h.symm, Bool.not_eq_true _ ▸ h1, Bool.not_eq_true _ ▸ h2,
          not_not.mp h3⟩

lemma validateTail_map_error {ids : List String} {m : Option Metadatas}
    {d : Option Documents} {oe : Option Embeddings} {inv : Bool}
    {err : ValidationError}
    (h : Except.map Prod.fst (validateTail ids m d oe inv) = .error err) :
    err = .emptyId ∨ err = .lengthMismatch
    ∨ (¬ ids.Nodup ∧ err = .duplicateId (duplicateIds ids)) := by
  unfold validateTail at h
  split at h
  · simp only [except_map_error, Except.error.injEq] at h
    exact Or.inl h.symm
  · split at h
    · simp only [except_map_error, Except.error.injEq] at h
      exact Or.inr (Or.inl h.symm)
    · split at h
      · rename_i h3
        simp only [except_map_error, Except.error.injEq] at h
        exact Or.inr (Or.inr ⟨h3, h.symm⟩)
      · simp [Except.map] at h

lemma validateTail_of_checks {ids : List String} {m : Option Metadatas}
    {d : Option Documents} {oe : Option Embeddings} (inv : Bool)
    (hemp : (ids.any fun id => id == "") = false)
    (hlen : lengthsMismatch ids oe m d = false)
    (hnd : ids.Nodup) :
    validateTail ids m d oe inv =
      .ok ({ ids := ids, metadatas := m, documents := d, embeddings := oe }, inv) := by
  unfold validateTail
  simp [hemp, hlen, hnd]

lemma validate_ok_shape {req : Bool} {b : CollectionEntries}
    {ef : Option EmbeddingFunction} {nb : CollectionEntries}
    (h : validate req b ef = .ok nb) :
    nb.ids = b.ids ∧ nb.metadatas = b.metadatas ∧ nb.documents = b.documents
    ∧ (b.ids.any fun id => id == "") = false
    ∧ lengthsMismatch b.ids nb.embeddings b.metadatas b.documents = false
    ∧ b.ids.Nodup := by
  obtain ⟨ids, m, d, e⟩ := b
  cases e <;> cases d <;> cases ef <;> cases req <;>
    simp [validate, validateAux, computeEmbeddings, except_map_error] at h
  all_goals try {
    obtain ⟨hnb, hemp, hlen, hnd⟩ := validateTail_map_ok h
    subst hnb
    simp_all
  }
  all_goals {
    rename_i ds f
    cases hf : f ds <;> simp [hf, except_map_error] at h
    obtain ⟨hnb, hemp, hlen, hnd⟩ := validateTail_map_ok h
    subst hnb
    simp_all
  }

/-! ### Claim theorems -/

/-- C1: for every raw entry batch, operation kind (`Add`/`Upsert` requiring
content, `Update` with content optional, i.e. the
`require_embeddings_or_documents` flag) and optional embedding provider,
the validator evaluates its checks in exactly the claimed order and returns
the first applicable failure: (1) `MissingContent`, (2)
`MissingEmbeddingProvider`, (3) `ConflictingEmbeddingSource`, (4) provider
invocation, (5) `EmptyId`, (6) `LengthMismatch`, (7) `DuplicateId`; if no
check applies, validation succeeds. -/
theorem validate_checks_in_claim_order (req : Bool) (b : CollectionEntries)
    (ef : Option EmbeddingFunction) :
    validate req b ef = validateSpecC1 req b ef := by
  obtain ⟨ids, m, d, e⟩ := b
  cases e <;> cases d <;> cases ef <;> cases req <;>
    simp [validate, validateAux, validateSpecC1, computeEmbeddings, tail_eq,
      except_map_error]
  all_goals {
    rename_i ds f
    cases hf : f ds <;> simp [hf, tail_eq, except_map_error]
  }

/-- C2: for every batch with embeddings absent, documents present and a
provider supplied, the validator invokes the provider on exactly the batch's
documents (the outcome depends on the provider only through its value on the
documents); a provider failure becomes the validation failure
`EmbeddingProviderFailed`; on provider success the returned vectors become
the normalized batch's embeddings; and the claim's concrete scenario:
ids `["x","y"]`, documents `["d1","d2"]`, provider returning two 768-long
zero vectors, validates successfully with exactly those embeddings. -/
theorem provider_invocation_on_documents :
    (∀ (req : Bool) (ids : List String) (m : Option Metadatas) (docs : Documents)
       (f : EmbeddingFunction) (e : String),
       f docs = .error e →
       validate req ⟨ids, m, some docs, none⟩ (some f)
         = .error (.embeddingProviderFailed e))
    ∧ (∀ (req : Bool) (ids : List String) (m : Option Metadatas) (docs : Documents)
        (f : EmbeddingFunction) (vs : Embeddings) (nb : CollectionEntries),
        f docs = .ok vs →
        validate req ⟨ids, m, some docs, none⟩ (some f) = .ok nb →
        nb.embeddings = some vs)
    ∧ (∀ (req : Bool) (ids : List String) (m : Option Metadatas) (docs : Documents)
        (f g : EmbeddingFunction),
        f docs = g docs →
        validate req ⟨ids, m, some docs, none⟩ (some f)
          = validate req ⟨ids, m, some docs, none⟩ (some g))
    ∧ validate true ⟨["x", "y"], none, some ["d1", "d2"], none⟩
        (some fun ds => .ok (ds.map fun _ => List.replicate 768 (0 : ℚ)))
      = .ok ⟨["x", "y"], none, some ["d1", "d2"],
          some [List.replicate 768 (0 : ℚ), List.replicate 768 (0 : ℚ)]⟩ := by
  refine ⟨?_, ?_, ?_, ?_⟩
  · intro req ids m docs f e hf
    simp [validate, validateAux, computeEmbeddings, hf, except_map_error]
  · intro req ids m docs f vs nb hf h
    simp only [validate, validateAux, computeEmbeddings] at h
    simp only [hf] at h
    simp at h
    obtain ⟨hnb, -, -, -⟩ := validateTail_map_ok h
    subst hnb
    rfl
  · intro req ids m docs f g hfg
    simp [validate, validateAux, computeEmbeddings, hfg]
  · rfl

/-- C2 witness: the provider-failure branch at a concrete input. -/
theorem provider_invocation_on_documents_witness :
    validate true ⟨["x"], none, some ["d"], none⟩
        (some fun _ => .error "provider down")
      = .error (.embeddingProviderFailed "provider down") :=
  provider_invocation_on_documents.1 true ["x"] none ["d"]
    (fun _ => .error "provider down") "provider down" rfl

/-- C3: the query-spec resolver settles the embedding source with the
claimed checks in the claimed order (refinement against the claim-worded
`resolveQuerySpecC3`), and it does so before any network call: whenever the
resolver fails, the outcome of `query` is the same for every transport. -/
theorem query_source_resolution_order :
    (∀ (qe : Option Embeddings) (qt : Option Documents)
       (ef : Option EmbeddingFunction),
       resolveQuerySource qe qt ef = resolveQuerySpecC3 qe qt ef)
    ∧ (∀ (q : QueryOptions) (ef : Option EmbeddingFunction) (e : QueryError)
        (t₁ t₂ : Transport),
        resolveQuerySource q.query_embeddings q.query_texts ef = .error e →
        queryOp q ef t₁ = queryOp q ef t₂) := by
  constructor
  · intro qe qt ef
    cases qe <;> cases qt <;> cases ef <;>
      simp [resolveQuerySource, resolveQuerySpecC3]
  · intro q ef e t₁ t₂ h
    unfold queryOp
    rw [h]

/-- C3 witness: with both query sources populated the resolver fails with
`ConflictingQuerySource` and the transport is never consulted (here: two
transports that disagree on every request give the same outcome). -/
theorem query_source_resolution_order_witness :
    queryOp ⟨some [[0]], some ["t"], none, none, none, none⟩ none
        (fun _ => .ok .null)
      = queryOp ⟨some [[0]], some ["t"], none, none, none, none⟩ none
        (fun _ => .error "boom") :=
  query_source_resolution_order.2 ⟨some [[0]], some ["t"], none, none, none, none⟩
    none .conflictingQuerySource (fun _ => .ok .null) (fun _ => .error "boom") rfl

/-- C4: a status in 200-299 hands the response body to the caller; any other
status fails with a message containing the numeric status code, the
canonical reason phrase (as resolved by the HTTP layer, `"Unknown"` when it
has none) and the response body text verbatim. -/
theorem transport_status_classification (status : Nat) (reason : Option String)
    (body : String) :
    (statusIsSuccess status = true → classifyResponse status reason body = .ok body)
    ∧ (statusIsSuccess status = false →
       ∃ msg, classifyResponse status reason body = .error msg
         ∧ containsSub (toString status) msg
         ∧ containsSub (reason.getD "Unknown") msg
         ∧ containsSub body msg) := by
  constructor
  · intro h
    simp [classifyResponse, h]
  · intro h
    refine ⟨toString status ++ " " ++ reason.getD "Unknown" ++ ": " ++ body,
      by simp [classifyResponse, h], ?_, ?_, ?_⟩
    · exact ⟨"", " " ++ reason.getD "Unknown" ++ ": " ++ body,
        by simp [String.append_assoc, String.empty_append]⟩
    · exact ⟨toString status ++ " ", ": " ++ body,
        by simp [String.append_assoc]⟩
    · exact ⟨toString status ++ " " ++ reason.getD "Unknown" ++ ": ", "",
        by simp [String.append_assoc, String.append_empty]⟩

/-- C4 witness: the claim's scenario, a 409 with body
"collection already exists". -/
theorem transport_status_classification_witness :
    ∃ msg, classifyResponse 409 (some "Conflict") "collection already exists"
        = .error msg
      ∧ containsSub (toString 409) msg
      ∧ containsSub "Conflict" msg
      ∧ containsSub "collection already exists" msg :=
  (transport_status_classification 409 (some "Conflict")
    "collection already exists").2 rfl

/-- C5 counterexample: the claim is false for `delete` — with all three
optional arguments absent, the body built by `ChromaCollection::delete`
carries an explicit null-valued `"ids"` key instead of omitting it. -/
theorem delete_body_keeps_null_keys :
    ("ids", JValue.null) ∈ deleteJsonBody none none none := by
  simp [deleteJsonBody, optJ]

/-- C5 as amended: only the `get` and `query` bodies strip null-valued keys
(absent optional fields are omitted there); the bodies built by `add`,
`upsert`, `update` and `delete` serialize absent optional fields as explicit
null-valued keys. -/
theorem null_key_policy :
    (∀ (g : GetOptions) (k : String), ("ids", JValue.null) ∉ getJsonBody g
      ∧ (k, JValue.null) ∉ getJsonBody g)
    ∧ (∀ (qe : Option Embeddings) (n : Option Nat) (w wd : Option JValue)
        (inc : Option (List String)) (k : String),
        (k, JValue.null) ∉ queryJsonBody qe n w wd inc)
    ∧ (∀ (ids : List String) (es : Option Embeddings),
        ("metadatas", JValue.null) ∈ addJsonBody ⟨ids, none, none, es⟩
        ∧ ("documents", JValue.null) ∈ upsertJsonBody ⟨ids, none, none, es⟩
        ∧ ("metadatas", JValue.null) ∈ updateJsonBody ⟨ids, none, none, es⟩)
    ∧ (∀ (w wd : Option JValue), ("ids", JValue.null) ∈ deleteJsonBody none w wd) := by
  refine ⟨?_, ?_, ?_, ?_⟩
  · intro g k
    constructor <;> {
      intro h
      have := (List.mem_filter.mp h).2
      simp [JValue.isNull] at this
    }
  · intro qe n w wd inc k h
    have := (List.mem_filter.mp h).2
    simp [JValue.isNull] at this
  · intro ids es
    refine ⟨?_, ?_, ?_⟩ <;> simp [entriesJsonBody, optJ]
  · intro w wd
    simp [deleteJsonBody, optJ]

/-- C5 witness: the `get` builder at a concrete input omits its absent
optional fields rather than sending null keys. -/
theorem null_key_policy_witness :
    ("where", JValue.null) ∉ getJsonBody ⟨["a"], none, some 5, none, none, none⟩ :=
  ((null_key_policy.1 ⟨["a"], none, some 5, none, none, none⟩ "where").2)

/-- C6 counterexample: the claim is false as stated — a batch whose only id
is the empty string, with embeddings, documents and provider all absent,
fails the `Add`/`Upsert` content check first and reports `MissingContent`,
not `EmptyId`. -/
theorem empty_id_not_always_empty_id_error :
    validate true ⟨[""], none, none, none⟩ none = .error .missingContent
    ∧ ValidationError.missingContent ≠ ValidationError.emptyId := by
  exact ⟨by decide, by decide⟩

/-- C6 as amended: a batch containing an empty-string id never validates,
whatever the other fields; and the failure is `EmptyId` whenever none of the
earlier checks applies first (the content check, the missing-provider check,
the conflicting-source check and the provider invocation all pass). -/
theorem empty_id_rejected (req : Bool) (b : CollectionEntries)
    (ef : Option EmbeddingFunction) (hmem : "" ∈ b.ids) :
    (∀ nb, validate req b ef ≠ .ok nb)
    ∧ ((req && b.embeddings.isNone && b.documents.isNone) = false →
       (b.embeddings.isNone && b.documents.isSome && ef.isNone) = false →
       (b.embeddings.isSome && ef.isSome) = false →
       ∀ oe inv, computeEmbeddings b ef = .ok (oe, inv) →
       validate req b ef = .error .emptyId) := by
  have hany : (b.ids.any fun id => id == "") = true :=
    (any_empty_iff b.ids).mpr ⟨"", hmem, rfl⟩
  constructor
  · intro nb hok
    obtain ⟨-, -, -, hemp, -, -⟩ := validate_ok_shape hok
    rw [hany] at hemp
    simp at hemp
  · intro h1 h2 h3 oe inv hce
    simp [validate, validateAux, h1, h2, h3, hce, validateTail, hany,
      except_map_error]

/-- C6 witness: an empty id among otherwise well-formed fields (embeddings
present, no provider) is rejected with `EmptyId`. -/
theorem empty_id_rejected_witness :
    validate true ⟨["", "a"], none, none, some [[0], [1]]⟩ none
      = .error .emptyId :=
  (empty_id_rejected true ⟨["", "a"], none, none, some [[0], [1]]⟩ none
    (by decide)).2 (by decide) (by decide) (by decide)
    (some [[0], [1]]) false rfl

/-- C7: whenever the validator reports `DuplicateId`, the reported list
enumerates exactly the set of ids occurring more than once in the batch
(membership in the reported list is equivalent to an occurrence count above
one — the set, not the order or multiplicity, is the contract); and every
batch that passes the earlier checks (1)-(6) and has a repeated id fails
with `DuplicateId` carrying that enumeration. -/
theorem duplicate_ids_reported :
    (∀ (req : Bool) (b : CollectionEntries) (ef : Option EmbeddingFunction)
       (l : List String),
       validate req b ef = .error (.duplicateId l) →
       ∀ x, x ∈ l ↔ 1 < b.ids.count x)
    ∧ (∀ (req : Bool) (b : CollectionEntries) (ef : Option EmbeddingFunction),
        (req && b.embeddings.isNone && b.documents.isNone) = false →
        (b.embeddings.isNone && b.documents.isSome && ef.isNone) = false →
        (b.embeddings.isSome && ef.isSome) = false →
        ∀ oe inv, computeEmbeddings b ef = .ok (oe, inv) →
        (b.ids.any fun id => id == "") = false →
        lengthsMismatch b.ids oe b.metadatas b.documents = false →
        ¬ b.ids.Nodup →
        validate req b ef = .error (.duplicateId (duplicateIds b.ids))) := by
  constructor
  · intro req b ef l h x
    obtain ⟨ids, m, d, e⟩ := b
    cases e <;> cases d <;> cases ef <;> cases req <;>
      simp [validate, validateAux, computeEmbeddings, except_map_error] at h
    all_goals try (rename_i ds f; cases hf : f ds <;> simp [hf, except_map_error] at h)
    all_goals (rcases validateTail_map_error h with h' | h' | ⟨hnd, h'⟩ <;> simp_all [mem_duplicateIds])
  · intro req b ef h1 h2 h3 oe inv hce hemp hlen hnd
    simp [validate, validateAux, h1, h2, h3, hce, validateTail, hemp, hlen,
      hnd, except_map_error]

/-- C7 witness: the claim's scenario ids `["a","b","a"]` (with matching
embeddings so the earlier checks pass) fails with `DuplicateId` and the
error identifies `"a"`. -/
theorem duplicate_ids_reported_witness :
    validate true ⟨["a", "b", "a"], none, none, some [[0], [0], [0]]⟩ none
      = .error (.duplicateId (duplicateIds ["a", "b", "a"]))
    ∧ duplicateIds ["a", "b", "a"] = ["a", "a"] :=
  ⟨duplicate_ids_reported.2 true ⟨["a", "b", "a"], none, none, some [[0], [0], [0]]⟩
      none (by decide) (by decide) (by decide) (some [[0], [0], [0]]) false rfl
      (by decide) (by decide) (by decide),
   by decide⟩

/-- C8: validation is idempotent — every batch the validator accepts, re-run
through the validator with no provider supplied, is accepted again
unchanged, and the provider-invocation flag of the second run is `false`
(no embedding-provider invocation occurs). -/
theorem validate_idempotent (req : Bool) (b : CollectionEntries)
    (ef : Option EmbeddingFunction) (nb : CollectionEntries)
    (h : validate req b ef = .ok nb) :
    validateAux req nb none = .ok (nb, false) := by
  obtain ⟨ids, m, d, e⟩ := b
  cases e <;> cases d <;> cases ef <;> cases req <;>
    simp [validate, validateAux, computeEmbeddings, except_map_error] at h
  all_goals try (rename_i ds f; cases hf : f ds <;> simp [hf, except_map_error] at h)
  all_goals (obtain ⟨hnb, hemp, hlen, hnd⟩ := validateTail_map_ok h; subst hnb; simp [validateAux, computeEmbeddings, validateTail_of_checks false hemp hlen hnd])

/-- C8 witness: a concrete accepted batch re-validates to itself with no
provider invocation. -/
theorem validate_idempotent_witness :
    validateAux true ⟨["a"], none, none, some [[0]]⟩ none
      = .ok (⟨["a"], none, none, some [[0]]⟩, false) :=
  validate_idempotent true ⟨["a"], none, none, some [[0]]⟩ none
    ⟨["a"], none, none, some [[0]]⟩ (by decide)

/-- C9: client construction performs exactly one identity call; if that call
fails, construction fails with the same error and no client value is
returned; if it succeeds, the tenant is the returned one with the wildcard
sentinel `"*"` replaced by `"default_tenant"` — and only `"*"` is replaced,
any other tenant passes through unchanged. -/
theorem tenant_resolution (db : String) (resp : Except String UserIdentity) :
    (clientNew db resp).2 = 1
    ∧ (∀ e, resp = .error e → (clientNew db resp).1 = .error e)
    ∧ (∀ u, resp = .ok u →
        (clientNew db resp).1 =
          .ok { tenant := if u.tenant = "*" then "default_tenant" else u.tenant,
                database := db }) := by
  refine ⟨?_, ?_, ?_⟩
  · cases resp <;> simp [clientNew, get_auth]
  · intro e he
    subst he
    simp [clientNew, get_auth]
  · intro u hu
    subst hu
    simp [clientNew, get_auth]

/-- C9 witness: the wildcard tenant is replaced by the default, a concrete
non-wildcard tenant passes through, and a failed identity call propagates. -/
theorem tenant_resolution_witness :
    (clientNew "default_database" (.ok ⟨"*", []⟩)).1
        = .ok { tenant := "default_tenant", database := "default_database" }
    ∧ (clientNew "default_database" (.ok ⟨"team-a", []⟩)).1
        = .ok { tenant := "team-a", database := "default_database" }
    ∧ (clientNew "default_database" (.error "connection refused")).1
        = .error "connection refused" := by
  refine ⟨?_, ?_, ?_⟩
  · have h := (tenant_resolution "default_database" (.ok ⟨"*", []⟩)).2.2 ⟨"*", []⟩ rfl
    simpa using h
  · have h := (tenant_resolution "default_database" (.ok ⟨"team-a", []⟩)).2.2
      ⟨"team-a", []⟩ rfl
    simpa using h
  · exact (tenant_resolution "default_database" (.error "connection refused")).2.1
      "connection refused" rfl

/-- C10: the entirely empty batch (no ids, embeddings present but empty,
everything else absent) passes validation for `Add`/`Upsert` unchanged, and
the resulting add operation goes through to the transport: whatever the
server answers to the built body is the operation's result. -/
theorem empty_batch_accepted :
    validate true ⟨[], none, none, some []⟩ none = .ok ⟨[], none, none, some []⟩
    ∧ ∀ (t : Transport) (v : JValue),
        t (addJsonBody ⟨[], none, none, some []⟩) = .ok v →
        addOp ⟨[], none, none, some []⟩ none t = .ok v := by
  constructor
  · decide
  · intro t v h
    have hv : validate true ⟨[], none, none, some []⟩ none
        = .ok ⟨[], none, none, some []⟩ := by decide
    simp [addOp, hv, h]

/-- C10 witness: a transport that acknowledges every request lets the empty
add succeed. -/
theorem empty_batch_accepted_witness :
    addOp ⟨[], none, none, some []⟩ none (fun _ => .ok .null) = .ok .null :=
  empty_batch_accepted.2 (fun _ => .ok .null) .null rfl

end ChromaDB
